import Mathlib

/-!
Verification development for the lakehouse ingestion pipeline
(src/ingestion: domain.py, orchestrator.py, ledger_store.py,
bundle_layout.py, extraction_task.py, extract.py).

Each Python component the claims touch is shallowly embedded as an
executable Lean definition; machine state (DuckDB tables, the staging
filesystem) is threaded explicitly, and fallible code returns Except.
-/

namespace Lakehouse

/-! ## Domain model (src/ingestion/domain.py) -/

/-- domain.py lines 7-21: identity for an ingested raw file under a
specific ingestion spec.  Frozen dataclass; equality is fieldwise. -/
structure FileKey where
  source_name : String
  raw_file_metadata_signature : String
  spec_hash : String
deriving DecidableEq, Repr

/-- domain.py lines 24-30: a raw file discovered on disk.
Paths are modelled as strings, the naive-UTC mtime as an integer. -/
structure DiscoveredFile where
  file_key : FileKey
  raw_file_path : String
  raw_file_size_bytes : Nat
  raw_file_mtime_utc : Int
deriving DecidableEq, Repr

/-- domain.py lines 39-43: result returned by an extraction worker.
It has exactly two fields; in particular there is no field named
data_snapshot_date. -/
structure ExtractionResult where
  extracted_bundle_path : String
  rows_extracted_total : Nat
deriving DecidableEq, Repr

/-- The field names of the ExtractionResult dataclass, in declaration
order (domain.py lines 39-43). -/
def extraction_result_fields : List String :=
  ["extracted_bundle_path", "rows_extracted_total"]

/-! ## Orchestration config and commit hysteresis
(src/ingestion/orchestrator.py lines 28-33 and 108-116).
Wall-clock quantities (time.time differences, float config values) are
modelled as rationals. -/

structure OrchestrationConfig where
  max_parallel_extractions : Nat
  batch_loading_size : Nat
  batch_loading_max_latency_seconds : ℚ
deriving Repr

/-- The orchestrator state observed by the commit decision at the top of
one loop iteration: buffer length, seconds since the last commit, and
whether the pending queue / in-flight map are empty. -/
structure CommitDecisionState where
  buffer_size : Nat
  time_since_last_commit : ℚ
  pending_is_empty : Bool
  in_flight_is_empty : Bool
deriving Repr

/-- orchestrator.py line 112: is_full = buffer_size >= batch_loading_size. -/
def is_full (cfg : OrchestrationConfig) (s : CommitDecisionState) : Bool :=
  s.buffer_size ≥ cfg.batch_loading_size

/-- orchestrator.py line 113:
is_stale = buffer_size > 0 and time_since_last >= batch_loading_max_latency_seconds. -/
def is_stale (cfg : OrchestrationConfig) (s : CommitDecisionState) : Bool :=
  s.buffer_size > 0 && decide (s.time_since_last_commit ≥ cfg.batch_loading_max_latency_seconds)

/-- orchestrator.py line 114: is_done = buffer_size > 0 and not pending and not in_flight. -/
def is_done (s : CommitDecisionState) : Bool :=
  s.buffer_size > 0 && s.pending_is_empty && s.in_flight_is_empty

/-- orchestrator.py line 116: commit iff is_full or is_stale or is_done. -/
def commit_triggered (cfg : OrchestrationConfig) (s : CommitDecisionState) : Bool :=
  is_full cfg s || is_stale cfg s || is_done s

/-! ## Python call binding
Model of CPython argument binding, needed because
Orchestrator._commit_batch (orchestrator.py line 156) calls
IngestionLedgerStore.commit_batch (ledger_store.py lines 139-147) and
binding is checked before the callee body runs. -/

/-- A Python function signature: positional-or-keyword parameters, then
keyword-only parameters (those after the bare star), each with a flag
saying whether it carries a default. -/
structure PySignature where
  positional_params : List (String × Bool)
  kw_only_params : List (String × Bool)
deriving Repr

/-- CPython binding of a call `f(a1..an, k1=..., km=...)` against a
signature: too many positional arguments, an unexpected or duplicated
keyword, or a missing required parameter each raise TypeError before the
function body executes. -/
def bind_call (sig : PySignature) (n_positional : Nat) (kw_names : List String) :
    Except String Unit :=
  if n_positional > sig.positional_params.length then
    .error "TypeError: too many positional arguments"
  else
    let bound_positionally := (sig.positional_params.take n_positional).map Prod.fst
    if kw_names.any (fun k => bound_positionally.contains k) then
      .error "TypeError: multiple values for argument"
    else if kw_names.any (fun k =>
        !(sig.positional_params.map Prod.fst).contains k &&
        !(sig.kw_only_params.map Prod.fst).contains k) then
      .error "TypeError: unexpected keyword argument"
    else
      let unbound := (sig.positional_params.drop n_positional) ++ sig.kw_only_params
      let missing := unbound.filter
        (fun p => !p.2 && !kw_names.contains p.1)
      if missing.isEmpty then .ok ()
      else .error ("TypeError: missing required argument " ++
        String.intercalate ", " (missing.map Prod.fst))

/-- Signature of IngestionLedgerStore.commit_batch with `self` already
bound (ledger_store.py lines 139-147): positional-or-keyword
batch_results and load_plans, then keyword-only run_id, file_targets and
table_partition_configs, none with a default. -/
def commit_batch_signature : PySignature :=
  { positional_params := [("batch_results", false), ("load_plans", false)]
    kw_only_params :=
      [("run_id", false), ("file_targets", false), ("table_partition_configs", false)] }

/-- The call Orchestrator._commit_batch makes at orchestrator.py
line 156: two positional arguments (buffer, load_plans) and keywords
run_id and file_targets. -/
def orchestrator_commit_kw_names : List String := ["run_id", "file_targets"]

/-! ## Ledger store (src/ingestion/ledger_store.py)
The DuckDB connection state is modelled explicitly: the ops tables
(loaded_files, loaded_file_targets) and the dynamic target tables.
A cell absent from a row is NULL; every DDL the store emits creates
nullable columns (no NOT NULL is ever added by ADD COLUMN). -/

/-- One column of a target table: name, DuckDB type (upper-cased string,
per ledger_store.py lines 384 and 391), nullability. -/
structure Col where
  name : String
  col_type : String
  is_nullable : Bool
deriving DecidableEq, Repr

/-- A data row: the cells that are present, keyed by column name.
A column with no entry holds NULL. -/
abbrev DataRow := List (String × String)

/-- A target table: schema plus rows. -/
structure TableState where
  cols : List Col
  rows : List DataRow
deriving DecidableEq, Repr

/-- ledger_store.py checkpoint row (loaded_files, lines 255-268). -/
structure CheckpointRow where
  source_name : String
  raw_file_metadata_signature : String
  spec_hash : String
  raw_file_path : String
  rows_loaded : Nat
  run_id : String
deriving DecidableEq, Repr

/-- The FileKey of a checkpoint row. -/
def CheckpointRow.file_key (r : CheckpointRow) : FileKey :=
  { source_name := r.source_name
    raw_file_metadata_signature := r.raw_file_metadata_signature
    spec_hash := r.spec_hash }

/-- ledger_store.py lineage row (loaded_file_targets, lines 270-281). -/
structure LineageRow where
  source_name : String
  raw_file_metadata_signature : String
  spec_hash : String
  target_table_fqn : String
  run_id : String
deriving DecidableEq, Repr

/-- The visible state of the embedded store: the two ops tables plus the
dynamic target tables, keyed by fully qualified name. -/
structure DBState where
  target_tables : List (String × TableState)
  loaded_files : List CheckpointRow
  loaded_file_targets : List LineageRow
deriving DecidableEq, Repr

/-- A parquet artifact on disk: column schema (as DESCRIBE reports it)
and rows. -/
structure Artifact where
  cols : List (String × String)
  rows : List DataRow
deriving DecidableEq, Repr

/-- The filesystem of parquet files read by read_parquet, keyed by path. -/
abbrev ParquetEnv := List (String × Artifact)

/-- DESCRIBE SELECT * FROM read_parquet(files, union_by_name=true):
the union of the files' column sets, by name, first occurrence first
(ledger_store.py lines 343-346 and 387-391). -/
def describe_union (env : ParquetEnv) (files : List String) : List (String × String) :=
  let arts := files.filterMap (fun p => (env.find? (fun e => e.1 == p)).map Prod.snd)
  (arts.flatMap Artifact.cols).foldl
    (fun acc c => if (acc.map Prod.fst).contains c.1 then acc else acc ++ [c]) []

/-- The data rows of read_parquet(files, union_by_name=true), in file
order. -/
def read_parquet_rows (env : ParquetEnv) (files : List String) : List DataRow :=
  (files.filterMap (fun p => (env.find? (fun e => e.1 == p)).map Prod.snd)).flatMap
    Artifact.rows

/-- Character-level split (used for the fqn check of
ledger_store.py lines 321-324, target_table_fqn.split of the dot). -/
def split_on_char_aux (sep : Char) : List Char → List Char → List (List Char)
  | [], acc => [acc.reverse]
  | c :: rest, acc =>
    if c == sep then acc.reverse :: split_on_char_aux sep rest []
    else split_on_char_aux sep rest (c :: acc)

/-- The dot-separated parts of a fully qualified table name. -/
def fqn_parts (fqn : String) : List String :=
  (split_on_char_aux '.' fqn.toList []).map (fun cs => String.mk cs)

/-- Replace (or append) the table bound to a name. -/
def set_table (tables : List (String × TableState)) (fqn : String) (t : TableState) :
    List (String × TableState) :=
  if (tables.map Prod.fst).contains fqn then
    tables.map (fun e => if e.1 == fqn then (e.1, t) else e)
  else tables ++ [(fqn, t)]

/-- ledger_store.py lines 380-406, the schema-evolution branch of
_ensure_target_table_from_parquet for an existing table: table_types is
the snapshot of the existing schema taken once (line 383-384); each
incoming parquet column absent from it is added via ALTER TABLE ADD
COLUMN (no NOT NULL clause, hence nullable); a shared column whose type
differs raises ValueError (refusing to auto-coerce). -/
def evolve_schema (table_types : List (String × String)) (cols : List Col) :
    List (String × String) → Except String (List Col)
  | [] => .ok cols
  | (n, ty) :: rest =>
    match table_types.find? (fun e => e.1 == n) with
    | none => evolve_schema table_types (cols ++ [⟨n, ty, true⟩]) rest
    | some e =>
      if e.2 == ty then evolve_schema table_types cols rest
      else .error "ValueError: schema mismatch, refusing to auto-coerce"

/-- ledger_store.py lines 309-406, _ensure_target_table_from_parquet:
validate the three-part name; if the table is absent, create it with the
incoming parquet schema (CREATE TABLE with no NOT NULL, hence all
columns nullable) and validate any partition keys against that schema;
if it exists, evolve its schema per evolve_schema. -/
def ensure_target_table_from_parquet (env : ParquetEnv) (db : DBState)
    (target_table_fqn : String) (parquet_files : List String)
    (partition_keys : List String) : Except String DBState :=
  if (fqn_parts target_table_fqn).length ≠ 3 then
    .error "ValueError: expected catalog.schema.table"
  else
    let incoming := describe_union env parquet_files
    match db.target_tables.find? (fun e => e.1 == target_table_fqn) with
    | none =>
      let tbl : TableState :=
        { cols := incoming.map (fun c => ⟨c.1, c.2, true⟩), rows := [] }
      let missing_keys :=
        partition_keys.filter (fun k => !(incoming.map Prod.fst).contains k)
      if !partition_keys.isEmpty && !missing_keys.isEmpty then
        .error "ValueError: partition keys not found in parquet schema"
      else
        -- ALTER TABLE SET PARTITIONED BY has no effect on the visible
        -- row/column state modelled here.
        .ok { db with target_tables := set_table db.target_tables target_table_fqn tbl }
    | some e =>
      match evolve_schema (e.2.cols.map (fun c => (c.name, c.col_type))) e.2.cols incoming with
      | .error err => .error err
      | .ok cols' =>
        .ok { db with target_tables :=
                set_table db.target_tables target_table_fqn { e.2 with cols := cols' } }

/-- ledger_store.py lines 172-176: INSERT INTO fqn BY NAME
SELECT * FROM read_parquet(files, union_by_name=true). Rows append; a
table column absent from an inserted row is NULL. -/
def insert_by_name (env : ParquetEnv) (db : DBState) (target_table_fqn : String)
    (parquet_files : List String) : Except String DBState :=
  match db.target_tables.find? (fun e => e.1 == target_table_fqn) with
  | none => .error "CatalogError: table does not exist"
  | some e =>
    let t' := { e.2 with rows := e.2.rows ++ read_parquet_rows env parquet_files }
    .ok { db with target_tables := set_table db.target_tables target_table_fqn t' }

/-- Injectable failures realising the error taxonomy of claim C2:
any step inside the transaction may raise (a store/transaction failure)
independently of the logical schema checks. -/
structure FaultSpec where
  fail_ensure : Bool
  fail_data_insert : Bool
  fail_checkpoint_insert : Bool
  fail_lineage_insert : Bool
deriving DecidableEq, Repr

/-- No injected failures. -/
def no_faults : FaultSpec :=
  { fail_ensure := false, fail_data_insert := false
    fail_checkpoint_insert := false, fail_lineage_insert := false }

/-- ledger_store.py lines 164-176: one load_plans entry — skip empty
file lists, ensure the target table, bulk insert. -/
def load_one_table (faults : FaultSpec) (env : ParquetEnv)
    (table_partition_configs : List (String × List String))
    (db : DBState) (entry : String × List String) : Except String DBState :=
  if entry.2.isEmpty then .ok db
  else
    let partition_keys :=
      ((table_partition_configs.find? (fun e => e.1 == entry.1)).map Prod.snd).getD []
    match ensure_target_table_from_parquet env db entry.1 entry.2 partition_keys with
    | .error e => .error e
    | .ok db1 =>
      if faults.fail_ensure then .error "injected: failure during table ensure"
      else
        match insert_by_name env db1 entry.1 entry.2 with
        | .error e => .error e
        | .ok db2 =>
          if faults.fail_data_insert then .error "injected: failure during data insert"
          else .ok db2

/-- The load loop of ledger_store.py lines 165-176 over all load_plans
entries. -/
def fold_load (faults : FaultSpec) (env : ParquetEnv)
    (table_partition_configs : List (String × List String)) :
    List (String × List String) → DBState → Except String DBState
  | [], db => .ok db
  | entry :: rest, db =>
    match load_one_table faults env table_partition_configs db entry with
    | .error e => .error e
    | .ok db' => fold_load faults env table_partition_configs rest db'

/-- ledger_store.py lines 179-191: the checkpoint rows of a batch. -/
def checkpoint_rows_of (run_id : String)
    (batch_results : List (DiscoveredFile × ExtractionResult)) : List CheckpointRow :=
  batch_results.map (fun dr =>
    { source_name := dr.1.file_key.source_name
      raw_file_metadata_signature := dr.1.file_key.raw_file_metadata_signature
      spec_hash := dr.1.file_key.spec_hash
      raw_file_path := dr.1.raw_file_path
      rows_loaded := dr.2.rows_extracted_total
      run_id := run_id })

/-- ledger_store.py lines 203-216: the lineage rows of a batch, one per
(file, target table) pair.  (The source iterates the target set in
sorted order; the order of rows is irrelevant to every claim, so the
given list order is kept.) -/
def lineage_rows_of (run_id : String)
    (file_targets : List (FileKey × List String))
    (batch_results : List (DiscoveredFile × ExtractionResult)) : List LineageRow :=
  batch_results.flatMap (fun dr =>
    let targets :=
      ((file_targets.find? (fun e => decide (e.1 = dr.1.file_key))).map Prod.snd).getD []
    targets.map (fun t =>
      { source_name := dr.1.file_key.source_name
        raw_file_metadata_signature := dr.1.file_key.raw_file_metadata_signature
        spec_hash := dr.1.file_key.spec_hash
        target_table_fqn := t
        run_id := run_id }))

/-- ledger_store.py lines 298-307, the transaction context manager:
BEGIN, run the body against the connection, ROLLBACK (restoring the
pre-transaction state) and re-raise on any exception, COMMIT otherwise.
Returns the visible post-call state and the propagated error, if any. -/
def transaction (conn : DBState) (body : DBState → Except String DBState) :
    DBState × Option String :=
  match body conn with
  | .ok db' => (db', none)
  | .error e => (conn, some e)

/-- ledger_store.py lines 139-226, commit_batch: early return on an
empty batch, then within one transaction: ensure-and-load every target
table, append the checkpoint rows, append the lineage rows.
(The body's read of r.data_snapshot_date per result is settled by claim
C3 — the field does not exist on ExtractionResult; the checkpoint row is
modelled without that value, and any failure while building or inserting
the rows is covered by fail_checkpoint_insert.) -/
def commit_batch (faults : FaultSpec) (env : ParquetEnv) (conn : DBState)
    (batch_results : List (DiscoveredFile × ExtractionResult))
    (load_plans : List (String × List String))
    (run_id : String)
    (file_targets : List (FileKey × List String))
    (table_partition_configs : List (String × List String)) :
    DBState × Option String :=
  if batch_results.isEmpty then (conn, none)
  else
    transaction conn (fun db =>
      match fold_load faults env table_partition_configs load_plans db with
      | .error e => .error e
      | .ok db1 =>
        if faults.fail_checkpoint_insert then
          .error "injected: failure before checkpoint insert"
        else
          let db2 := { db1 with
            loaded_files := db1.loaded_files ++ checkpoint_rows_of run_id batch_results }
          if faults.fail_lineage_insert then
            .error "injected: failure before lineage insert"
          else
            .ok { db2 with
              loaded_file_targets :=
                db2.loaded_file_targets ++ lineage_rows_of run_id file_targets batch_results })

/-! ## Orchestrator (src/ingestion/orchestrator.py) -/

/-- orchestrator.py lines 131-163, _commit_batch: an empty buffer
returns immediately (lines 137-138); otherwise load plans and lineage
are computed and store.commit_batch is called at line 156 with two
positional arguments and the keywords run_id and file_targets.  CPython
checks that binding against commit_batch's signature before the callee
body runs; a binding failure raises TypeError out of _commit_batch with
the store untouched.  Were the binding to succeed, the body's read of
r.data_snapshot_date per result (ledger_store.py line 185) would raise
AttributeError, extraction_result_fields holding no such name — either
way the store state is unchanged. -/
def orchestrator_commit_batch (conn : DBState)
    (buffer : List (DiscoveredFile × ExtractionResult)) : DBState × Option String :=
  if buffer.isEmpty then (conn, none)
  else
    match bind_call commit_batch_signature 2 orchestrator_commit_kw_names with
    | .error e => (conn, some e)
    | .ok _ =>
      (conn, some "AttributeError: ExtractionResult has no attribute data_snapshot_date")

/-- The outcome of one extraction task as observed by fut.result() at
orchestrator.py line 103: a result, or a raised exception. -/
inductive TaskOutcome where
  | success (r : ExtractionResult)
  | failure (msg : String)
deriving DecidableEq, Repr

/-- A buffered successful extraction (orchestrator.py line 74). -/
abbrev BufEntry := DiscoveredFile × ExtractionResult

/-- orchestrator.py lines 77-124, the dispatch/collect/commit loop,
serialised: each iteration collects the outcome of one dispatched file —
a failed task is logged and dropped (lines 105-106), a successful one is
buffered (line 104) — then evaluates the commit hysteresis of lines
108-119.  commit_fn abstracts self._commit_batch(store, ctx, buffer),
i.e. the injected store and load-planner collaborators; times gives the
value of time.time() - last_commit_time observed at each iteration.
The decisive control-flow fact is that the try at line 77 carries a
finally but no except: an exception raised by _commit_batch leaves the
loop and propagates. -/
def run_loop (cfg : OrchestrationConfig)
    (commit_fn : List BufEntry → Except String Unit) :
    List (DiscoveredFile × TaskOutcome) → List ℚ → List BufEntry →
    Except String Unit
  | [], _, buffer =>
    -- Loop exit at line 121-122 once nothing is pending or in flight;
    -- a non-empty buffer at that point has already been flushed by the
    -- is_done trigger of the final iteration, and a degenerate initial
    -- state still flushes here per that trigger.
    if buffer.isEmpty then .ok () else commit_fn buffer
  | (f, out) :: rest, times, buffer =>
    let buffer' :=
      match out with
      | .success r => buffer ++ [(f, r)]
      | .failure _ => buffer
    let s : CommitDecisionState :=
      { buffer_size := buffer'.length
        time_since_last_commit := times.headD 0
        pending_is_empty := rest.isEmpty
        in_flight_is_empty := true }
    if commit_triggered cfg s then
      match commit_fn buffer' with
      | .error e => .error e
      | .ok _ => run_loop cfg commit_fn rest times.tail []
    else
      run_loop cfg commit_fn rest times.tail buffer'

/-- orchestrator.py lines 64-129, run: the loop inside try/finally.
cleanup_after_commit (line 127) always executes, and a loop exception
still propagates to the caller after it.  The Bool records that the
end-of-run cleanup ran. -/
def orchestrator_run (cfg : OrchestrationConfig)
    (commit_fn : List BufEntry → Except String Unit)
    (outcomes : List (DiscoveredFile × TaskOutcome)) (times : List ℚ) :
    Except String Unit × Bool :=
  (run_loop cfg commit_fn outcomes times [], true)

/-- ledger_store.py lines 131-137: the FileKeys of every checkpoint row
(read as a set; the orchestrator only tests membership). -/
def completed_keys_of (rows : List CheckpointRow) : List FileKey :=
  rows.map CheckpointRow.file_key

/-- orchestrator.py line 69: the pending set — discovered files whose
FileKey is not among the completed keys read once at run start. -/
def pending_of (completed : List FileKey) (discovered : List DiscoveredFile) :
    List DiscoveredFile :=
  discovered.filter (fun f => !(decide (f.file_key ∈ completed)))

/-- One run at the checkpoint-table level: the orchestrator reads the
completed keys once (orchestrator.py line 66), filters discovery
(line 69), and over the run checkpoints exactly those pending files
whose extraction and batch commit both succeed (succeeded abstracts the
per-file fate; result_of the worker's ExtractionResult); each
checkpointed file contributes one loaded_files row
(ledger_store.py lines 179-200). -/
def run_checkpoints (conn : List CheckpointRow) (discovered : List DiscoveredFile)
    (succeeded : DiscoveredFile → Bool)
    (result_of : DiscoveredFile → ExtractionResult) (run_id : String) :
    List CheckpointRow :=
  conn ++ checkpoint_rows_of run_id
    (((pending_of (completed_keys_of conn) discovered).filter succeeded).map
      (fun f => (f, result_of f)))

/-- The parameters of one run in a sequence: its discovery scan, the
per-file success predicate, the per-file extraction results, the run id. -/
structure RunParams where
  discovered : List DiscoveredFile
  succeeded : DiscoveredFile → Bool
  result_of : DiscoveredFile → ExtractionResult
  run_id : String

/-- A sequence of runs against the same store, each applying
run_checkpoints to the state the previous one left. -/
def run_sequence (conn : List CheckpointRow) : List RunParams → List CheckpointRow
  | [] => conn
  | p :: rest => run_sequence (run_checkpoints conn p.discovered p.succeeded p.result_of p.run_id) rest

/-! ## Bundle layout (src/ingestion/bundle_layout.py) and extraction
task (src/ingestion/extraction_task.py).
The filesystem is modelled from the viewpoint of one extraction task:
the bundle at its tmp path, the bundle at its final path, and the trash
zone (a list of named bundles). -/

/-- extraction_task.py lines 113-119: the bundle.json payload. -/
structure BundleManifest where
  source_name : String
  raw_file : String
  status : String
  total_rows : Nat
  artifacts : List (String × String × Nat)
deriving DecidableEq, Repr

/-- A bundle directory: optional manifest plus the artifact files
present (by relative path). -/
structure Bundle where
  manifest : Option BundleManifest
  data_files : List String
deriving DecidableEq, Repr

/-- The staging tree slices one extraction task touches. -/
structure StagingFS where
  tmp_bundle : Option Bundle
  final_bundle : Option Bundle
  trash : List (String × Bundle)
deriving DecidableEq, Repr

/-- bundle_layout.py lines 73-74: a directory is a complete bundle iff
bundle.json exists in it. -/
def is_complete_bundle_dir (b : Option Bundle) : Bool :=
  match b with
  | some bd => bd.manifest.isSome
  | none => false

/-- bundle_layout.py lines 65-71: write bundle.json atomically
(temp file + os.replace); afterwards the manifest is the payload. -/
def write_bundle_manifest (b : Bundle) (payload : BundleManifest) : Bundle :=
  { b with manifest := some payload }

/-- bundle_layout.py lines 92-103: the promotion loop — os.replace(tmp,
final) attempted up to max_retries = 10 times, sleeping between
PermissionErrors and re-raising on the last.  Each element of the
attempt list says whether that os.replace call succeeds. -/
def promote_loop (fs : StagingFS) : List Bool → Except String StagingFS
  | [] => .error "PermissionError: promotion retries exhausted"
  | a :: rest =>
    if a then .ok { fs with final_bundle := fs.tmp_bundle, tmp_bundle := none }
    else promote_loop fs rest

/-- bundle_layout.py lines 76-103, finalize_tmp_bundle.  The OS is
modelled by oracles: rename_to_trash_ok is whether os.rename(final,
trash) at line 88 succeeds — on OSError the code falls back to
shutil.rmtree(final_bundle_dir) at line 90, deleting the old directory
in place so it reaches no zone; trash_name is the uuid-suffixed name
chosen at line 86; replace_attempts drives the promotion loop (at most
10 attempts are consumed).  Pruning of empty tmp parents (line 98)
touches no modelled zone. -/
def finalize_tmp_bundle (fs : StagingFS) (trash_name : String)
    (rename_to_trash_ok : Bool) (replace_attempts : List Bool) :
    Except String StagingFS :=
  let fs1 :=
    match fs.final_bundle with
    | some old =>
      if rename_to_trash_ok then
        { fs with final_bundle := none, trash := fs.trash ++ [(trash_name, old)] }
      else
        { fs with final_bundle := none }
    | none => fs
  promote_loop fs1 (replace_attempts.take 10)

/-- The raw file as the extraction task sees it: its name and the parsed
logical data records after the header (header handling and record
reassembly are the subject of claim C8). -/
structure RawFile where
  name : String
  data_records : List DataRow
deriving Repr

/-- extract.py lines 233-294, convert_to_parquet at bundle granularity.
With zero data records the cleaned record stream is empty, so
pv.read_csv at line 269 raises ArrowInvalid (Empty CSV file) on the
zero-byte input — before the row_count == 0 early return at lines
276-278 could run — and the exception is wrapped as CSVExtractionError
at lines 293-294; a non-empty stream always yields at least one row, so
a success returns the row count with the artifact written into the
directory. -/
def convert_to_parquet (raw : RawFile) (bundle : Bundle) (artifact_relpath : String) :
    Except String (Nat × Bundle) :=
  if raw.data_records.isEmpty then
    .error "CSVExtractionError: FastCSVExtraction failed: Empty CSV file"
  else
    .ok (raw.data_records.length,
      { bundle with data_files := bundle.data_files ++ [artifact_relpath] })

/-- The observable output of one extraction task: the returned
ExtractionResult, the filesystem afterwards, and how many times the raw
file's content was read. -/
structure TaskOutput where
  result : ExtractionResult
  fs : StagingFS
  raw_reads : Nat
deriving Repr

/-- extraction_task.py lines 84-88: metrics.total_rows as read from an
existing bundle.json (int(manifest.get of metrics, total_rows, default
zero)). -/
def manifest_total_rows (b : Option Bundle) : Nat :=
  ((b.bind Bundle.manifest).map BundleManifest.total_rows).getD 0

/-- extraction_task.py lines 65-133, execute_extraction_task: if the
final bundle is already complete (lines 82-89) the existing manifest's
metrics.total_rows is returned without reading the raw file; otherwise
the raw file is extracted into the tmp bundle, data.parquet and the
manifest are written, and the bundle is promoted (lines 91-125); on any
failure — including a CSVExtractionError from convert_to_parquet — the
tmp bundle is deleted and the error re-raised (lines 127-133), so
neither a manifest write nor a promotion happens.  final_dir is the
path string the result carries; the snapshot-date parse at line 94 is a
no-op for specs with no filename-date configuration and is not
modelled. -/
def execute_extraction_task (source_name final_dir : String) (raw : RawFile)
    (fs : StagingFS) (trash_name : String) (rename_to_trash_ok : Bool)
    (replace_attempts : List Bool) : Except String TaskOutput :=
  if is_complete_bundle_dir fs.final_bundle then
    .ok { result := { extracted_bundle_path := final_dir
                      rows_extracted_total := manifest_total_rows fs.final_bundle }
          fs := fs
          raw_reads := 0 }
  else
    let tmp0 : Bundle := { manifest := none, data_files := [] }
    match convert_to_parquet raw tmp0 "data.parquet" with
    | .error e => .error e
    | .ok conv =>
      let payload : BundleManifest :=
        { source_name := source_name, raw_file := raw.name, status := "COMPLETED"
          total_rows := conv.1
          artifacts := [("data.parquet", "data", conv.1)] }
      let tmp1 := write_bundle_manifest conv.2 payload
      let fs1 := { fs with tmp_bundle := some tmp1 }
      match finalize_tmp_bundle fs1 trash_name rename_to_trash_ok replace_attempts with
      | .ok fs2 =>
        .ok { result := { extracted_bundle_path := final_dir
                          rows_extracted_total := conv.1 }
              fs := fs2
              raw_reads := 1 }
      | .error e => .error e

/-! ## Record stream (src/ingestion/extract.py lines 165-230)
Bytes are modelled as character lists; each physical line arrives with
its terminator already stripped (line 190). -/

/-- Python bytes.split with a non-empty separator: non-overlapping cuts,
left to right, empty pieces kept.  The scan accumulates the current
piece and cuts as soon as the separator appears as its suffix, which
finds exactly the leftmost non-overlapping occurrences. -/
def split_aux (d : List Char) (s : List Char) (cur : List Char) :
    List (List Char) :=
  match s with
  | [] => [cur]
  | c :: rest =>
    let cur' := cur ++ [c]
    if !d.isEmpty && d.isSuffixOf cur' then
      cur'.take (cur'.length - d.length) :: split_aux d rest []
    else
      split_aux d rest cur'

/-- buffer.split(complex_delimiter) at extract.py lines 197 and 219. -/
def split_by (d : List Char) (s : List Char) : List (List Char) :=
  split_aux d s []

/-- Replace the last element of a list. -/
def modify_last (f : List Char → List Char) : List (List Char) → List (List Char)
  | [] => []
  | [x] => [f x]
  | x :: y :: rest => x :: modify_last f (y :: rest)

/-- extract.py lines 180-186, normalize: strip one leading quote byte
from the first part and one trailing quote byte from the last, then join
with the internal delimiter.  The record is modelled as its field list;
the join is injective on it. -/
def normalize_record (q : Char) (parts : List (List Char)) : List (List Char) :=
  let p1 :=
    match parts with
    | [] => []
    | p0 :: rest => (if p0.head? == some q then p0.tail else p0) :: rest
  modify_last (fun pl => if pl.getLast? == some q then pl.dropLast else pl) p1

/-- extract.py lines 165-230, _stream_cleaned_lines after the header
skip: physical lines accumulate into buffer (line 192); an empty buffer
is skipped (lines 193-195); splitting the buffer by the complex
delimiter quote+delimiter+quote decides emission (lines 197-214): fewer
parts than the expected column count keeps buffering, exactly the
expected count emits the normalized record and resets the buffer, more
raises CSVExtractionError.  At end of input a non-empty trailing buffer
is emitted if it splits into exactly the expected count and otherwise
raises (lines 215-230). -/
def stream_cleaned_lines (cd : List Char) (q : Char) (expected : Nat) :
    List (List Char) → List Char → Except String (List (List (List Char)))
  | [], buffer =>
    if buffer.isEmpty then .ok []
    else
      let parts := split_by cd buffer
      if parts.length = expected then .ok [normalize_record q parts]
      else .error "CSVExtractionError: trailing buffer column count mismatch"
  | line :: rest, buffer =>
    let buffer' := buffer ++ line
    if buffer'.isEmpty then
      stream_cleaned_lines cd q expected rest []
    else
      let parts := split_by cd buffer'
      if parts.length < expected then
        stream_cleaned_lines cd q expected rest buffer'
      else if parts.length = expected then
        (stream_cleaned_lines cd q expected rest []).map
          (fun recs => normalize_record q parts :: recs)
      else
        .error "CSVExtractionError: line has more columns than header"

/-! ## Theorems -/

/-- Claim C7: in Orchestrator.run's loop a commit is triggered exactly
when the buffer has reached batch_loading_size, or the buffer is
non-empty and the time since the last commit has reached
batch_loading_max_latency_seconds, or the buffer is non-empty with no
pending and no in-flight work; with a threshold of 50 and a max latency
of 30 seconds, 10 buffered results never trigger a commit before the
staleness bound elapses or the run drains. -/
theorem commit_hysteresis_characterization
    (cfg : OrchestrationConfig) (s : CommitDecisionState) :
    (commit_triggered cfg s = true ↔
      (cfg.batch_loading_size ≤ s.buffer_size ∨
        (0 < s.buffer_size ∧
          cfg.batch_loading_max_latency_seconds ≤ s.time_since_last_commit) ∨
        (0 < s.buffer_size ∧ s.pending_is_empty = true ∧ s.in_flight_is_empty = true))) ∧
    (cfg.batch_loading_size = 50 → cfg.batch_loading_max_latency_seconds = 30 →
      s.buffer_size = 10 → s.time_since_last_commit < 30 →
      (s.pending_is_empty = false ∨ s.in_flight_is_empty = false) →
      commit_triggered cfg s = false) := by
  constructor
  · simp only [commit_triggered, is_full, is_stale, is_done, Bool.or_eq_true,
      Bool.and_eq_true, decide_eq_true_eq, ge_iff_le, gt_iff_lt, Nat.lt_iff_add_one_le,
      Nat.zero_add]
    tauto
  · intro h50 h30 hb ht hrun
    have h1 : ¬ (50 ≤ 10) := by norm_num
    have h2 : ¬ ((30 : ℚ) ≤ s.time_since_last_commit) := not_le.mpr ht
    simp only [commit_triggered, is_full, is_stale, is_done, h50, h30, hb]
    rcases hrun with h | h <;> simp [h, h1, h2]

/-- Witness for C7 at a concrete state: 10 buffered results, 5 seconds
since the last commit, pending work remaining — no commit. -/
theorem commit_hysteresis_characterization_witness :
    commit_triggered
      { max_parallel_extractions := 14, batch_loading_size := 50
        batch_loading_max_latency_seconds := 30 }
      { buffer_size := 10, time_since_last_commit := 5
        pending_is_empty := false, in_flight_is_empty := true } = false :=
  (commit_hysteresis_characterization
      { max_parallel_extractions := 14, batch_loading_size := 50
        batch_loading_max_latency_seconds := 30 }
      { buffer_size := 10, time_since_last_commit := 5
        pending_is_empty := false, in_flight_is_empty := true }).2
    rfl rfl rfl (by norm_num) (Or.inl rfl)

/-- Claim C3: the call Orchestrator._commit_batch makes to
IngestionLedgerStore.commit_batch omits the required keyword-only
parameter table_partition_configs, so it raises TypeError before
persisting anything; moreover the ExtractionResult dataclass defines no
data_snapshot_date field, which commit_batch's body reads — so no batch
can ever be committed through the orchestrator as written: the store
state is unchanged and an error is always raised for a non-empty
buffer. -/
theorem orchestrator_commit_call_raises (conn : DBState)
    (buffer : List (DiscoveredFile × ExtractionResult)) (hb : buffer ≠ []) :
    bind_call commit_batch_signature 2 orchestrator_commit_kw_names =
      .error "TypeError: missing required argument table_partition_configs" ∧
    "data_snapshot_date" ∉ extraction_result_fields ∧
    (orchestrator_commit_batch conn buffer).1 = conn ∧
    (orchestrator_commit_batch conn buffer).2 =
      some "TypeError: missing required argument table_partition_configs" := by
  refine ⟨rfl, by decide, ?_, ?_⟩ <;>
    · cases buffer with
      | nil => exact absurd rfl hb
      | cons x l => rfl

/-- Witness for C3 at a concrete one-element buffer. -/
theorem orchestrator_commit_call_raises_witness :
    (orchestrator_commit_batch
        { target_tables := [], loaded_files := [], loaded_file_targets := [] }
        [({ file_key := { source_name := "s", raw_file_metadata_signature := "sig"
                          spec_hash := "h" }
            raw_file_path := "/raw/a.csv", raw_file_size_bytes := 3
            raw_file_mtime_utc := 0 },
           { extracted_bundle_path := "/stage/s/b", rows_extracted_total := 1 })]).1 =
      { target_tables := [], loaded_files := [], loaded_file_targets := [] } :=
  (orchestrator_commit_call_raises
      { target_tables := [], loaded_files := [], loaded_file_targets := [] }
      [({ file_key := { source_name := "s", raw_file_metadata_signature := "sig"
                        spec_hash := "h" }
          raw_file_path := "/raw/a.csv", raw_file_size_bytes := 3
          raw_file_mtime_utc := 0 },
         { extracted_bundle_path := "/stage/s/b", rows_extracted_total := 1 })]
      (by simp)).2.2.1

/-- The transaction context manager restores the pre-transaction
connection state whenever the body raises (ledger_store.py lines
303-305: ROLLBACK, then re-raise). -/
theorem transaction_error_restores (conn : DBState)
    (body : DBState → Except String DBState) (e : String)
    (h : (transaction conn body).2 = some e) : (transaction conn body).1 = conn := by
  unfold transaction at h ⊢
  cases hb : body conn with
  | ok db' => rw [hb] at h; exact absurd h (by simp)
  | error e' => rfl

/-- Claim C2: within one invocation of IngestionLedgerStore.commit_batch,
if any step raises after the transaction has begun — table
creation/evolution, bulk data insert, checkpoint-row insert or
lineage-row insert, whether a logical schema failure or an injected
store failure — the transaction is rolled back: afterwards no checkpoint
row, no lineage row and no target-table row from the batch is visible;
the store state is exactly the pre-call state. -/
theorem commit_batch_rollback_on_error (faults : FaultSpec) (env : ParquetEnv)
    (conn : DBState) (batch_results : List (DiscoveredFile × ExtractionResult))
    (load_plans : List (String × List String)) (run_id : String)
    (file_targets : List (FileKey × List String))
    (table_partition_configs : List (String × List String)) (e : String)
    (herr : (commit_batch faults env conn batch_results load_plans run_id
        file_targets table_partition_configs).2 = some e) :
    (commit_batch faults env conn batch_results load_plans run_id
        file_targets table_partition_configs).1 = conn ∧
    (commit_batch faults env conn batch_results load_plans run_id
        file_targets table_partition_configs).1.loaded_files = conn.loaded_files ∧
    (commit_batch faults env conn batch_results load_plans run_id
        file_targets table_partition_configs).1.loaded_file_targets =
      conn.loaded_file_targets ∧
    (commit_batch faults env conn batch_results load_plans run_id
        file_targets table_partition_configs).1.target_tables = conn.target_tables := by
  by_cases hempty : batch_results.isEmpty
  · unfold commit_batch at herr
    rw [if_pos hempty] at herr
    exact absurd herr (by simp)
  · have hmain : (commit_batch faults env conn batch_results load_plans run_id
        file_targets table_partition_configs).1 = conn := by
      unfold commit_batch at herr ⊢
      rw [if_neg hempty] at herr ⊢
      exact transaction_error_restores conn _ e herr
    exact ⟨hmain, by rw [hmain], by rw [hmain], by rw [hmain]⟩

/-- Witness for C2: a one-file batch with a failure injected after the
data insert and before the checkpoint-row insert — exactly the
simulated-failure scenario — leaves the (empty) store unchanged. -/
theorem commit_batch_rollback_on_error_witness :
    (commit_batch { no_faults with fail_checkpoint_insert := true }
        [("/p/a.parquet", { cols := [("x", "VARCHAR")], rows := [[("x", "1")]] })]
        { target_tables := [], loaded_files := [], loaded_file_targets := [] }
        [({ file_key := { source_name := "s", raw_file_metadata_signature := "sig"
                          spec_hash := "h" }
            raw_file_path := "/raw/a.csv", raw_file_size_bytes := 3
            raw_file_mtime_utc := 0 },
           { extracted_bundle_path := "/stage/s/b", rows_extracted_total := 1 })]
        [("cat.sch.t", ["/p/a.parquet"])] "r1"
        [({ source_name := "s", raw_file_metadata_signature := "sig", spec_hash := "h" },
          ["cat.sch.t"])] []).1 =
      { target_tables := [], loaded_files := [], loaded_file_targets := [] } :=
  (commit_batch_rollback_on_error { no_faults with fail_checkpoint_insert := true }
      [("/p/a.parquet", { cols := [("x", "VARCHAR")], rows := [[("x", "1")]] })]
      { target_tables := [], loaded_files := [], loaded_file_targets := [] }
      [({ file_key := { source_name := "s", raw_file_metadata_signature := "sig"
                        spec_hash := "h" }
          raw_file_path := "/raw/a.csv", raw_file_size_bytes := 3
          raw_file_mtime_utc := 0 },
         { extracted_bundle_path := "/stage/s/b", rows_extracted_total := 1 })]
      [("cat.sch.t", ["/p/a.parquet"])] "r1"
      [({ source_name := "s", raw_file_metadata_signature := "sig", spec_hash := "h" },
        ["cat.sch.t"])] []
      "injected: failure before checkpoint insert" rfl).1

/-- A successful promotion moves the tmp bundle into the final path and
clears the tmp path; the trash zone is untouched by the loop itself. -/
theorem promote_loop_ok (fs : StagingFS) (attempts : List Bool) (fs' : StagingFS)
    (h : promote_loop fs attempts = .ok fs') :
    fs' = { fs with final_bundle := fs.tmp_bundle, tmp_bundle := none } := by
  induction attempts with
  | nil => exact absurd h (by simp [promote_loop])
  | cons a rest ih =>
    unfold promote_loop at h
    by_cases ha : a = true
    · rw [if_pos ha] at h
      exact (Except.ok.injEq _ _ ▸ h).symm ▸ rfl
    · rw [if_neg ha] at h
      exact ih h

/-- Bundles used by the concrete C5 scenario: an old complete final
bundle from a prior extraction of the same file version, and a new
complete tmp bundle about to be promoted. -/
def c5_old_bundle : Bundle :=
  { manifest := some { source_name := "s", raw_file := "/raw/a.csv"
                       status := "COMPLETED", total_rows := 2
                       artifacts := [("data.parquet", "data", 2)] }
    data_files := ["data.parquet"] }

/-- The freshly extracted bundle at the tmp path. -/
def c5_new_bundle : Bundle :=
  { manifest := some { source_name := "s", raw_file := "/raw/a.csv"
                       status := "COMPLETED", total_rows := 3
                       artifacts := [("data.parquet", "data", 3)] }
    data_files := ["data.parquet"] }

/-- The staging tree before re-promotion: both paths occupied, empty
trash. -/
def c5_fs : StagingFS :=
  { tmp_bundle := some c5_new_bundle, final_bundle := some c5_old_bundle, trash := [] }

/-- Counterexample to claim C5: when os.rename(final, trash) raises
OSError (bundle_layout.py line 89), finalize_tmp_bundle falls back to
shutil.rmtree(final_bundle_dir, ignore_errors=True) at line 90 — the
existing final directory is deleted synchronously in place and reaches
no trash entry, yet the promotion succeeds.  The claim's "it is never
deleted synchronously in place" is therefore false. -/
theorem finalize_trash_counterexample :
    c5_fs.final_bundle = some c5_old_bundle ∧
    finalize_tmp_bundle c5_fs "oldbundle_1f2e3d" false [true] =
      .ok { tmp_bundle := none, final_bundle := some c5_new_bundle, trash := [] } ∧
    (({ tmp_bundle := none, final_bundle := some c5_new_bundle
        trash := [] } : StagingFS).trash.map Prod.snd).contains c5_old_bundle = false := by
  exact ⟨rfl, rfl, rfl⟩

/-- Claim C5 as amended: when finalize_tmp_bundle promotes a temporary
bundle over an existing final directory AND the rename of that directory
into the trash zone succeeds, the old directory ends up in the trash
zone under the chosen unique name (it is not deleted in place); after
any successful promotion the final path is fully owned by the newly
promoted bundle.  (Only when the trash rename raises OSError is the old
directory instead deleted synchronously in place, per the
counterexample.) -/
theorem finalize_trash_amended (fs : StagingFS) (old : Bundle)
    (trash_name : String) (attempts : List Bool) (fs' : StagingFS)
    (hold : fs.final_bundle = some old)
    (hok : finalize_tmp_bundle fs trash_name true attempts = .ok fs') :
    fs'.trash = fs.trash ++ [(trash_name, old)] ∧
    (trash_name, old) ∈ fs'.trash ∧
    fs'.final_bundle = fs.tmp_bundle ∧
    fs'.tmp_bundle = none := by
  unfold finalize_tmp_bundle at hok
  rw [hold] at hok
  simp only [if_pos rfl] at hok
  have h := promote_loop_ok _ _ _ hok
  subst h
  refine ⟨rfl, ?_, rfl, rfl⟩
  simp

/-- Witness for the amended C5 at the concrete scenario with a
successful trash rename. -/
theorem finalize_trash_amended_witness :
    ∃ fs', finalize_tmp_bundle c5_fs "oldbundle_1f2e3d" true [true] = .ok fs' ∧
      fs'.trash = [("oldbundle_1f2e3d", c5_old_bundle)] ∧
      fs'.final_bundle = some c5_new_bundle := by
  refine ⟨{ tmp_bundle := none, final_bundle := some c5_new_bundle
            trash := [("oldbundle_1f2e3d", c5_old_bundle)] }, rfl, ?_, ?_⟩
  · exact (finalize_trash_amended c5_fs c5_old_bundle "oldbundle_1f2e3d" [true] _
      rfl rfl).1
  · exact (finalize_trash_amended c5_fs c5_old_bundle "oldbundle_1f2e3d" [true] _
      rfl rfl).2.2.1

/-- A file and result for the concrete C1 run. -/
def c1_file : DiscoveredFile :=
  { file_key := { source_name := "s", raw_file_metadata_signature := "sig1"
                  spec_hash := "h1" }
    raw_file_path := "/raw/a.csv", raw_file_size_bytes := 10, raw_file_mtime_utc := 0 }

/-- The extraction result the worker returns for c1_file. -/
def c1_result : ExtractionResult :=
  { extracted_bundle_path := "/stage/s/b1", rows_extracted_total := 4 }

/-- Counterexample to claim C1: a run with one successfully extracted
file whose drain commit raises (e.g. a schema conflict inside
commit_batch).  orchestrator.py's try at line 77 has a finally but no
except, so Orchestrator.run propagates the exception to its caller
instead of completing normally. -/
theorem run_propagates_commit_error_counterexample :
    (orchestrator_run
        { max_parallel_extractions := 14, batch_loading_size := 50
          batch_loading_max_latency_seconds := 30 }
        (fun _ => .error "ValueError: schema mismatch, refusing to auto-coerce")
        [(c1_file, .success c1_result)] [0]).1 =
      .error "ValueError: schema mismatch, refusing to auto-coerce" := by
  rfl

/-- Claim C1 as amended: extraction failures never make Orchestrator.run
raise — if every batch commit the run performs succeeds, the run
completes normally no matter how many files fail to extract, those files
simply staying un-checkpointed — and the end-of-run cleanup always runs;
but an exception raised by a batch commit (schema conflict or
store/transaction failure) propagates out of run to its caller. -/
theorem run_contains_extraction_failures (cfg : OrchestrationConfig)
    (commit_fn : List BufEntry → Except String Unit)
    (outcomes : List (DiscoveredFile × TaskOutcome)) (times : List ℚ)
    (hcommit : ∀ b, commit_fn b = .ok ()) :
    (orchestrator_run cfg commit_fn outcomes times).1 = .ok () ∧
    (orchestrator_run cfg commit_fn outcomes times).2 = true := by
  refine ⟨?_, rfl⟩
  show run_loop cfg commit_fn outcomes times [] = .ok ()
  suffices h : ∀ (os : List (DiscoveredFile × TaskOutcome)) (ts : List ℚ)
      (buffer : List BufEntry), run_loop cfg commit_fn os ts buffer = .ok () from
    h outcomes times []
  intro os
  induction os with
  | nil =>
    intro ts buffer
    unfold run_loop
    by_cases hb : buffer.isEmpty
    · rw [if_pos hb]
    · rw [if_neg hb]; exact hcommit buffer
  | cons fo rest ih =>
    intro ts buffer
    unfold run_loop
    rcases fo with ⟨f, out⟩
    by_cases htrig : commit_triggered cfg
        { buffer_size := (match out with
            | .success r => buffer ++ [(f, r)]
            | .failure _ => buffer).length
          time_since_last_commit := ts.headD 0
          pending_is_empty := rest.isEmpty
          in_flight_is_empty := true } = true
    · rw [if_pos htrig, hcommit]
      exact ih ts.tail []
    · rw [if_neg htrig]
      exact ih ts.tail _

/-- Witness for the amended C1: a run where the only file fails to
extract, against an always-succeeding store — the run completes
normally. -/
theorem run_contains_extraction_failures_witness :
    (orchestrator_run
        { max_parallel_extractions := 14, batch_loading_size := 50
          batch_loading_max_latency_seconds := 30 }
        (fun _ => .ok ())
        [(c1_file, .failure "CSVExtractionError: header must be quoted")] [0]).1 =
      .ok () :=
  (run_contains_extraction_failures
      { max_parallel_extractions := 14, batch_loading_size := 50
        batch_loading_max_latency_seconds := 30 }
      (fun _ => .ok ())
      [(c1_file, .failure "CSVExtractionError: header must be quoted")] [0]
      (fun _ => rfl)).1

/-- A successful finalize_tmp_bundle leaves the promoted bundle at the
final path and clears the tmp path, whatever the trash-step oracle. -/
theorem finalize_ok_final (fs : StagingFS) (trash_name : String) (rok : Bool)
    (attempts : List Bool) (fs' : StagingFS)
    (h : finalize_tmp_bundle fs trash_name rok attempts = .ok fs') :
    fs'.final_bundle = fs.tmp_bundle ∧ fs'.tmp_bundle = none := by
  unfold finalize_tmp_bundle at h
  cases hfb : fs.final_bundle with
  | none =>
    rw [hfb] at h
    have heq := promote_loop_ok _ _ _ h
    subst heq
    exact ⟨rfl, rfl⟩
  | some old =>
    rw [hfb] at h
    dsimp only at h
    by_cases hr : rok = true
    · rw [if_pos hr] at h
      have heq := promote_loop_ok _ _ _ h
      subst heq
      exact ⟨rfl, rfl⟩
    · rw [if_neg hr] at h
      have heq := promote_loop_ok _ _ _ h
      subst heq
      exact ⟨rfl, rfl⟩

/-- Claim C6: for a file whose final bundle is already complete (its
manifest exists), execute_extraction_task performs no extraction — it
returns the final directory with the row count recorded in the existing
manifest, reading the raw file zero times and leaving the filesystem
untouched; consequently running the extraction task twice for the same
file version yields the same bundle and the same result. -/
theorem extraction_task_idempotent (source_name final_dir : String)
    (raw : RawFile) (fs : StagingFS) (trash_name : String) (rok : Bool)
    (attempts : List Bool) :
    (is_complete_bundle_dir fs.final_bundle = true →
      execute_extraction_task source_name final_dir raw fs trash_name rok attempts =
        .ok { result := { extracted_bundle_path := final_dir
                          rows_extracted_total := manifest_total_rows fs.final_bundle }
              fs := fs, raw_reads := 0 }) ∧
    (∀ o₁, execute_extraction_task source_name final_dir raw fs trash_name rok attempts
        = .ok o₁ →
      ∀ tn' rok' ra',
        execute_extraction_task source_name final_dir raw o₁.fs tn' rok' ra' =
          .ok { result := o₁.result, fs := o₁.fs, raw_reads := 0 }) := by
  constructor
  · intro hcomp
    unfold execute_extraction_task
    rw [if_pos hcomp]
  · intro o₁ h1 tn' rok' ra'
    by_cases hcomp : is_complete_bundle_dir fs.final_bundle = true
    · unfold execute_extraction_task at h1
      rw [if_pos hcomp] at h1
      injection h1 with h1
      subst h1
      unfold execute_extraction_task
      rw [if_pos hcomp]
    · unfold execute_extraction_task at h1
      rw [if_neg hcomp] at h1
      dsimp only at h1
      cases hconv : convert_to_parquet raw { manifest := none, data_files := [] }
          "data.parquet" with
      | error e =>
        rw [hconv] at h1
        exact absurd h1 (by simp)
      | ok conv =>
        rw [hconv] at h1
        dsimp only at h1
        cases hfin : finalize_tmp_bundle
            { fs with tmp_bundle := some (write_bundle_manifest conv.2
                { source_name := source_name, raw_file := raw.name
                  status := "COMPLETED"
                  total_rows := conv.1
                  artifacts := [("data.parquet", "data", conv.1)] }) }
            trash_name rok attempts with
        | error e =>
          rw [hfin] at h1
          exact absurd h1 (by simp)
        | ok fs2 =>
          rw [hfin] at h1
          injection h1 with h1
          subst h1
          have hfinal := finalize_ok_final _ _ _ _ _ hfin
          unfold execute_extraction_task
          rw [if_pos (by rw [hfinal.1]; rfl)]
          dsimp only
          rw [hfinal.1]
          rfl

/-- Witness for C6: a concrete complete bundle is reused; the second
invocation of the extraction task returns the first one's result with
zero raw-file reads. -/
theorem extraction_task_idempotent_witness :
    execute_extraction_task "s" "/stage/s/b" { name := "a.csv", data_records := [] }
      { tmp_bundle := none, final_bundle := some c5_old_bundle, trash := [] }
      "t" true [true] =
      .ok { result := { extracted_bundle_path := "/stage/s/b"
                        rows_extracted_total := 2 }
            fs := { tmp_bundle := none, final_bundle := some c5_old_bundle
                    trash := [] }
            raw_reads := 0 } :=
  (extraction_task_idempotent "s" "/stage/s/b"
      { name := "a.csv", data_records := [] }
      { tmp_bundle := none, final_bundle := some c5_old_bundle, trash := [] }
      "t" true [true]).1 rfl

/-- Counterexample to claim C10 at a concrete header-only file: the
cleaned record stream is empty, so pv.read_csv raises ArrowInvalid
(Empty CSV file) — wrapped as CSVExtractionError at extract.py lines
293-294 — before the row_count == 0 return at lines 277-278 can run;
convert_to_parquet does not return 0, execute_extraction_task fails,
and no manifest is written and no bundle is promoted, refuting the
claimed phantom-artifact bundle. -/
theorem empty_file_counterexample :
    convert_to_parquet { name := "a.csv", data_records := [] }
        { manifest := none, data_files := [] } "data.parquet" =
      .error "CSVExtractionError: FastCSVExtraction failed: Empty CSV file" ∧
    execute_extraction_task "s" "/stage/s/b1"
        { name := "a.csv", data_records := [] }
        { tmp_bundle := none, final_bundle := none, trash := [] }
        "t" true [true] =
      .error "CSVExtractionError: FastCSVExtraction failed: Empty CSV file" :=
  ⟨rfl, rfl⟩

/-- Claim C10 as amended: for every raw file with zero data records and
a not-yet-complete final bundle, extraction fails — the empty cleaned
stream makes pv.read_csv raise, wrapped as CSVExtractionError — so
execute_extraction_task deletes the tmp bundle and re-raises: no row
count is returned, no manifest is written, and no bundle is promoted;
the file stays un-checkpointed and the claimed complete bundle with a
phantom data.parquet artifact is never produced. -/
theorem empty_file_extraction_fails (source_name final_dir : String)
    (raw : RawFile) (fs : StagingFS) (trash_name : String) (rok : Bool)
    (attempts : List Bool)
    (hraw : raw.data_records = [])
    (hincomp : is_complete_bundle_dir fs.final_bundle = false) :
    convert_to_parquet raw { manifest := none, data_files := [] } "data.parquet" =
      .error "CSVExtractionError: FastCSVExtraction failed: Empty CSV file" ∧
    execute_extraction_task source_name final_dir raw fs trash_name rok attempts =
      .error "CSVExtractionError: FastCSVExtraction failed: Empty CSV file" := by
  have hconv : convert_to_parquet raw { manifest := none, data_files := [] }
      "data.parquet" =
      .error "CSVExtractionError: FastCSVExtraction failed: Empty CSV file" := by
    unfold convert_to_parquet
    rw [hraw]
    rfl
  refine ⟨hconv, ?_⟩
  unfold execute_extraction_task
  rw [if_neg (by simp [hincomp])]
  dsimp only
  rw [hconv]

/-- Witness for the amended C10 at a concrete header-only file against
empty staging. -/
theorem empty_file_extraction_fails_witness :
    execute_extraction_task "s" "/stage/s/b2"
        { name := "b.csv", data_records := [] }
        { tmp_bundle := none, final_bundle := none, trash := [] }
        "t2" false [true] =
      .error "CSVExtractionError: FastCSVExtraction failed: Empty CSV file" :=
  (empty_file_extraction_fails "s" "/stage/s/b2"
      { name := "b.csv", data_records := [] }
      { tmp_bundle := none, final_bundle := none, trash := [] }
      "t2" false [true] rfl rfl).2

/-- The number of checkpoint rows carrying a given FileKey. -/
def checkpoint_count (rows : List CheckpointRow) (k : FileKey) : Nat :=
  rows.countP (fun r => decide (r.file_key = k))

/-- A discovery scan with pairwise-distinct FileKeys mentions any key at
most once. -/
theorem countP_key_le_one_of_nodup (d : List DiscoveredFile)
    (h : (d.map DiscoveredFile.file_key).Nodup) (k : FileKey) :
    d.countP (fun f => decide (f.file_key = k)) ≤ 1 := by
  induction d with
  | nil => simp
  | cons f rest ih =>
    rw [List.map_cons, List.nodup_cons] at h
    rw [List.countP_cons]
    by_cases hk : f.file_key = k
    · have hzero : rest.countP (fun f => decide (f.file_key = k)) = 0 := by
        rw [List.countP_eq_zero]
        intro g hg hgk
        exact h.1 (hk ▸ (of_decide_eq_true hgk) ▸ List.mem_map_of_mem _ hg)
      simp [hzero, hk]
    · rw [decide_eq_false hk]
      simpa using ih h.2

/-- One orchestrator run preserves the at-most-once checkpoint
invariant: the run only inserts rows for keys absent from the table it
read at start, and a distinct-keyed discovery contributes each key at
most once. -/
theorem run_checkpoints_count (conn : List CheckpointRow)
    (d : List DiscoveredFile) (s : DiscoveredFile → Bool)
    (res : DiscoveredFile → ExtractionResult) (rid : String)
    (hnd : (d.map DiscoveredFile.file_key).Nodup)
    (hle : ∀ k, checkpoint_count conn k ≤ 1) (k : FileKey) :
    checkpoint_count (run_checkpoints conn d s res rid) k ≤ 1 := by
  unfold run_checkpoints checkpoint_count
  rw [List.countP_append]
  have hnew : (checkpoint_rows_of rid
      (((pending_of (completed_keys_of conn) d).filter s).map
        (fun f => (f, res f)))).countP (fun r => decide (r.file_key = k)) =
      ((pending_of (completed_keys_of conn) d).filter s).countP
        (fun f => decide (f.file_key = k)) := by
    unfold checkpoint_rows_of
    rw [List.countP_map, List.countP_map]
    rfl
  rw [hnew]
  by_cases hk : k ∈ completed_keys_of conn
  · have hzero : ((pending_of (completed_keys_of conn) d).filter s).countP
        (fun f => decide (f.file_key = k)) = 0 := by
      rw [List.countP_eq_zero]
      intro f hf hfk
      have hf1 : f ∈ pending_of (completed_keys_of conn) d := List.mem_of_mem_filter hf
      have hf2 := (List.mem_filter.mp hf1).2
      rw [of_decide_eq_true hfk] at hf2
      simp [hk] at hf2
    rw [hzero]
    simpa using hle k
  · have hzero : conn.countP (fun r => decide (r.file_key = k)) = 0 := by
      rw [List.countP_eq_zero]
      intro r hr hrk
      exact hk ((of_decide_eq_true hrk) ▸ List.mem_map_of_mem _ hr)
    rw [hzero]
    have hsub : List.Sublist ((pending_of (completed_keys_of conn) d).filter s) d :=
      ((List.filter_sublist _).trans (List.filter_sublist _))
    simpa using le_trans (hsub.countP_le _) (countP_key_le_one_of_nodup d hnd k)

/-- Claim C4: across any sequence of runs in which every write to
loaded_files goes through the orchestrator — which filters discovered
files against get_completed_file_keys() read once at run start — a
FileKey appears in the checkpoint table at most once (the table itself
has no uniqueness constraint); and after a run that checkpoints every
discovered file, a second run over the unchanged file set computes an
empty pending set and checkpoints nothing new. -/
theorem checkpoint_at_most_once (conn : List CheckpointRow)
    (runs : List RunParams)
    (hnd : ∀ p ∈ runs, (p.discovered.map DiscoveredFile.file_key).Nodup)
    (hinv : ∀ k, checkpoint_count conn k ≤ 1) :
    (∀ k, checkpoint_count (run_sequence conn runs) k ≤ 1) ∧
    (∀ (st : List CheckpointRow) (d : List DiscoveredFile)
        (res : DiscoveredFile → ExtractionResult) (rid : String),
      pending_of (completed_keys_of
        (run_checkpoints st d (fun _ => true) res rid)) d = [] ∧
      (∀ (s' : DiscoveredFile → Bool) res' rid',
        run_checkpoints (run_checkpoints st d (fun _ => true) res rid) d s' res' rid' =
          run_checkpoints st d (fun _ => true) res rid)) := by
  constructor
  · suffices hgen : ∀ (rs : List RunParams) (st : List CheckpointRow),
        (∀ p ∈ rs, (p.discovered.map DiscoveredFile.file_key).Nodup) →
        (∀ k, checkpoint_count st k ≤ 1) →
        ∀ k, checkpoint_count (run_sequence st rs) k ≤ 1 from
      hgen runs conn hnd hinv
    intro rs
    induction rs with
    | nil => intro st _ h k; exact h k
    | cons p rest ih =>
      intro st hnds hst k
      unfold run_sequence
      exact ih _ (fun q hq => hnds q (List.mem_cons_of_mem _ hq))
        (fun k' => run_checkpoints_count st p.discovered p.succeeded p.result_of
          p.run_id (hnds p (List.mem_cons_self p rest)) hst k') k
  · intro st d res rid
    have hpend : pending_of (completed_keys_of
        (run_checkpoints st d (fun _ => true) res rid)) d = [] := by
      unfold pending_of
      rw [List.filter_eq_nil_iff]
      intro f hf
      simp only [Bool.not_eq_true', Bool.not_eq_false]
      rw [decide_eq_true_eq]
      unfold run_checkpoints completed_keys_of
      rw [List.map_append]
      by_cases hmem : f.file_key ∈ st.map CheckpointRow.file_key
      · exact List.mem_append_left _ hmem
      · refine List.mem_append_right _ ?_
        have hfp : f ∈ (pending_of (st.map CheckpointRow.file_key) d).filter
            (fun _ => true) := by
          rw [List.filter_true]
          exact List.mem_filter.mpr ⟨hf, by simpa using hmem⟩
        unfold checkpoint_rows_of
        rw [List.map_map, List.map_map]
        exact List.mem_map.mpr ⟨f, hfp, rfl⟩
    refine ⟨hpend, ?_⟩
    intro s' res' rid'
    have hrw : run_checkpoints (run_checkpoints st d (fun _ => true) res rid) d s' res' rid'
        = run_checkpoints st d (fun _ => true) res rid ++ checkpoint_rows_of rid'
            (((pending_of (completed_keys_of
                (run_checkpoints st d (fun _ => true) res rid)) d).filter s').map
              (fun f => (f, res' f))) := rfl
    rw [hrw, hpend]
    simp [checkpoint_rows_of]

/-- Witness for C4: a two-file discovery committed in full by run r1;
re-running over the unchanged file set finds an empty pending set and
leaves the table unchanged, and every key is checkpointed once. -/
theorem checkpoint_at_most_once_witness :
    checkpoint_count (run_sequence []
      [{ discovered := [c1_file], succeeded := fun _ => true
         result_of := fun _ => c1_result, run_id := "r1" }]) c1_file.file_key ≤ 1 :=
  (checkpoint_at_most_once []
      [{ discovered := [c1_file], succeeded := fun _ => true
         result_of := fun _ => c1_result, run_id := "r1" }]
      (by intro p hp; simp at hp; subst hp; simp)
      (fun k => by simp [checkpoint_count])).1 c1_file.file_key

/-- Successful schema evolution appends exactly those incoming columns
absent from the table-schema snapshot, as nullable, in incoming order. -/
theorem evolve_schema_ok_shape (tt : List (String × String)) :
    ∀ (incoming : List (String × String)) (acc cols' : List Col),
      evolve_schema tt acc incoming = .ok cols' →
      cols' = acc ++ (incoming.filter
          (fun p => (tt.find? (fun e => e.1 == p.1)).isNone)).map
        (fun p => ⟨p.1, p.2, true⟩) := by
  intro incoming
  induction incoming with
  | nil =>
    intro acc cols' h
    unfold evolve_schema at h
    injection h with h
    simp [h.symm]
  | cons q rest ih =>
    intro acc cols' h
    rcases q with ⟨n, ty⟩
    unfold evolve_schema at h
    cases hfind : tt.find? (fun e => e.1 == n) with
    | none =>
      rw [hfind] at h
      dsimp only at h
      rw [ih _ _ h, List.filter_cons]
      simp [hfind]
    | some e =>
      rw [hfind] at h
      dsimp only at h
      by_cases he : (e.2 == ty) = true
      · rw [if_pos he] at h
        rw [ih _ _ h, List.filter_cons]
        simp [hfind]
      · rw [if_neg he] at h
        exact absurd h (by simp)

/-- A shared column whose snapshot type differs from the incoming type
makes schema evolution fail, whatever had been accumulated. -/
theorem evolve_schema_mismatch (tt : List (String × String)) :
    ∀ (incoming : List (String × String)) (acc : List Col)
      (p : String × String), p ∈ incoming →
      ∀ e, tt.find? (fun x => x.1 == p.1) = some e → e.2 ≠ p.2 →
      ∃ err, evolve_schema tt acc incoming = .error err := by
  intro incoming
  induction incoming with
  | nil => intro acc p hp; exact absurd hp (List.not_mem_nil p)
  | cons q rest ih =>
    intro acc p hp e hfind hne
    rcases q with ⟨n, ty⟩
    rcases List.mem_cons.mp hp with heq | hmem
    · cases heq
      dsimp only at hfind hne
      unfold evolve_schema
      rw [hfind]
      dsimp only
      rw [if_neg (by simpa using hne)]
      exact ⟨_, rfl⟩
    · unfold evolve_schema
      cases hf : tt.find? (fun x => x.1 == n) with
      | none =>
        dsimp only
        exact ih _ p hmem e hfind hne
      | some e' =>
        dsimp only
        by_cases he : (e'.2 == ty) = true
        · rw [if_pos he]; exact ih _ p hmem e hfind hne
        · rw [if_neg he]; exact ⟨_, rfl⟩

/-- Replacing the table bound to a present name is observed by find?. -/
theorem find?_set_table (tables : List (String × TableState)) (fqn : String)
    (t' : TableState) (hc : (tables.map Prod.fst).contains fqn = true) :
    (set_table tables fqn t').find? (fun e => e.1 == fqn) = some (fqn, t') := by
  unfold set_table
  rw [if_pos hc]
  induction tables with
  | nil => simp at hc
  | cons e rest ih =>
    rw [List.map_cons, List.contains_cons] at hc
    cases hx : (e.1 == fqn) with
    | true =>
      have he' : e.1 = fqn := by simpa using hx
      rw [List.map_cons, if_pos hx,
        List.find?_cons_of_pos _ (by simpa using hx), he']
    | false =>
      have hne : ¬ e.1 = fqn := by simpa using hx
      have hfc : (fqn == e.1) = false := by
        refine beq_eq_false_iff_ne.mpr ?_
        exact fun hh => hne hh.symm
      rw [hfc, Bool.false_or] at hc
      rw [List.map_cons, if_neg (by simp [hx]),
        List.find?_cons_of_neg _ (by simpa using hx)]
      exact ih hc

/-- A successful find? implies the searched name is present. -/
theorem contains_of_find?_eq_some (tables : List (String × TableState))
    (fqn : String) (x : String × TableState)
    (h : tables.find? (fun e => e.1 == fqn) = some x) :
    (tables.map Prod.fst).contains fqn = true := by
  have hpred := List.find?_some h
  have hmem := List.mem_of_find?_eq_some h
  have hx : x.1 = fqn := by simpa using hpred
  rw [List.contains_eq_any_beq]
  rw [List.any_eq_true]
  exact ⟨x.1, List.mem_map_of_mem Prod.fst hmem, by simp [hx]⟩

/-- Claim C9: during commit, for an existing target table, every column
present in the incoming parquet schema but absent from the table is
added via ALTER TABLE ADD COLUMN as nullable, leaving prior rows' data
intact; and if any column shared between the table and the incoming
schema has a differing type, a fatal error is raised and no rows are
inserted into that table for the batch (the whole transaction returns
the store unchanged). -/
theorem schema_evolution_additive_and_fatal
    (env : ParquetEnv) (conn : DBState) (fqn : String) (t : TableState)
    (files pk : List String)
    (htbl : conn.target_tables.find? (fun e => e.1 == fqn) = some (fqn, t))
    (h3 : (fqn_parts fqn).length = 3) :
    (∀ db', ensure_target_table_from_parquet env conn fqn files pk = .ok db' →
      ∃ t', db'.target_tables.find? (fun e => e.1 == fqn) = some (fqn, t') ∧
        t'.rows = t.rows ∧
        t'.cols = t.cols ++ ((describe_union env files).filter
            (fun p => ((t.cols.map (fun c => (c.name, c.col_type))).find?
                (fun e => e.1 == p.1)).isNone)).map
          (fun p => ⟨p.1, p.2, true⟩) ∧
        (∀ c ∈ t'.cols, c ∉ t.cols → c.is_nullable = true)) ∧
    (∀ p ∈ describe_union env files, ∀ e,
      (t.cols.map (fun c => (c.name, c.col_type))).find? (fun x => x.1 == p.1) =
        some e →
      e.2 ≠ p.2 →
      (∃ err, ensure_target_table_from_parquet env conn fqn files pk = .error err) ∧
      (∀ (batch_results : List (DiscoveredFile × ExtractionResult))
          (run_id : String) (file_targets : List (FileKey × List String)),
        batch_results ≠ [] → files ≠ [] →
        ∃ err, commit_batch no_faults env conn batch_results [(fqn, files)] run_id
          file_targets [(fqn, pk)] = (conn, some err))) := by
  have hred : ensure_target_table_from_parquet env conn fqn files pk =
      match evolve_schema (t.cols.map (fun c => (c.name, c.col_type))) t.cols
          (describe_union env files) with
      | .error err => .error err
      | .ok cols' =>
        .ok { conn with target_tables := set_table conn.target_tables fqn { t with cols := cols' } } := by
    unfold ensure_target_table_from_parquet
    rw [if_neg (by simp [h3]), htbl]
  constructor
  · intro db' hok
    rw [hred] at hok
    cases hev : evolve_schema (t.cols.map (fun c => (c.name, c.col_type))) t.cols
        (describe_union env files) with
    | error err =>
      rw [hev] at hok
      exact absurd hok (by simp)
    | ok cols' =>
      rw [hev] at hok
      injection hok with hok
      subst hok
      have hshape := evolve_schema_ok_shape _ _ _ _ hev
      refine ⟨{ t with cols := cols' }, ?_, rfl, hshape, ?_⟩
      · exact find?_set_table conn.target_tables fqn _
          (contains_of_find?_eq_some conn.target_tables fqn _ htbl)
      · intro c hc hnot
        rw [hshape] at hc
        rcases List.mem_append.mp hc with hin | hin
        · exact absurd hin hnot
        · rcases List.mem_map.mp hin with ⟨p, _, hpc⟩
          rw [← hpc]
  · intro p hp e hfind hne
    obtain ⟨err, herr⟩ := evolve_schema_mismatch
      (t.cols.map (fun c => (c.name, c.col_type))) (describe_union env files)
      t.cols p hp e hfind hne
    have hens : ensure_target_table_from_parquet env conn fqn files pk =
        .error err := by rw [hred, herr]
    refine ⟨⟨err, hens⟩, ?_⟩
    intro batch_results run_id file_targets hbr hfiles
    refine ⟨err, ?_⟩
    have hbody : fold_load no_faults env [(fqn, pk)] [(fqn, files)] conn =
        .error err := by
      unfold fold_load load_one_table
      rw [if_neg (by simpa using hfiles)]
      have hlookup : ((([(fqn, pk)] : List (String × List String)).find?
          (fun e => e.1 == fqn)).map Prod.snd).getD [] = pk := by
        simp
      dsimp only
      rw [hlookup, hens]
    unfold commit_batch
    rw [if_neg (by simpa using hbr)]
    unfold transaction
    dsimp only
    rw [hbody]

/-- The store for the C9 witness: one existing target table with a
single VARCHAR column x and one prior row. -/
def c9_conn : DBState :=
  { target_tables := [("cat.sch.t",
      { cols := [{ name := "x", col_type := "VARCHAR", is_nullable := true }]
        rows := [[("x", "1")]] })]
    loaded_files := [], loaded_file_targets := [] }

/-- The incoming parquet for the C9 witness: columns x VARCHAR and a new
column y BIGINT. -/
def c9_env : ParquetEnv :=
  [("/p/b.parquet", { cols := [("x", "VARCHAR"), ("y", "BIGINT")]
                      rows := [[("x", "2"), ("y", "7")]] })]

/-- The existing table of the C9 witness. -/
def c9_table : TableState :=
  { cols := [{ name := "x", col_type := "VARCHAR", is_nullable := true }]
    rows := [[("x", "1")]] }

/-- The store after the C9 witness load: the table gained nullable
column y, prior row intact. -/
def c9_after : DBState :=
  { target_tables := [("cat.sch.t",
      { cols := [{ name := "x", col_type := "VARCHAR", is_nullable := true },
                 { name := "y", col_type := "BIGINT", is_nullable := true }]
        rows := [[("x", "1")]] })]
    loaded_files := [], loaded_file_targets := [] }

/-- Witness for C9: loading an artifact with the extra column y into the
existing table adds y as nullable and keeps the prior row intact. -/
theorem schema_evolution_additive_and_fatal_witness :
    ∃ t', c9_after.target_tables.find? (fun e => e.1 == "cat.sch.t") =
        some ("cat.sch.t", t') ∧
      t'.rows = c9_table.rows ∧
      t'.cols = c9_table.cols ++
        (((describe_union c9_env ["/p/b.parquet"]).filter
          (fun p => ((c9_table.cols.map (fun c => (c.name, c.col_type))).find?
              (fun e => e.1 == p.1)).isNone)).map
          (fun p => ⟨p.1, p.2, true⟩)) ∧
      (∀ c ∈ t'.cols, c ∉ c9_table.cols → c.is_nullable = true) :=
  (schema_evolution_additive_and_fatal c9_env c9_conn "cat.sch.t" c9_table
      ["/p/b.parquet"] [] rfl rfl).1 c9_after rfl

/-- Replacing the last element keeps the length. -/
theorem modify_last_length (f : List Char → List Char) :
    ∀ l : List (List Char), (modify_last f l).length = l.length
  | [] => rfl
  | [_] => rfl
  | x :: y :: rest => by
    show (x :: modify_last f (y :: rest)).length = (x :: y :: rest).length
    simp [modify_last_length f (y :: rest)]

/-- Normalizing a record keeps its field count. -/
theorem normalize_record_length (q : Char) (parts : List (List Char)) :
    (normalize_record q parts).length = parts.length := by
  unfold normalize_record
  cases parts with
  | nil => rfl
  | cons p0 rest => simp [modify_last_length]

/-- Claim C8: the record stream of FastCSVExtractor emits a logical
record exactly when splitting the accumulated buffer by the complex
delimiter yields the expected column count — every emitted record has
exactly that many fields; when the split of a non-empty buffer yields
fewer parts, the stream buffers the line and emits nothing, proceeding
to the next physical line; when it yields more parts, a fatal
CSVExtractionError is raised. -/
theorem stream_record_emission (cd : List Char) (q : Char) (expected : Nat) :
    (∀ (lines : List (List Char)) (buffer : List Char)
        (recs : List (List (List Char))),
      stream_cleaned_lines cd q expected lines buffer = .ok recs →
      ∀ r ∈ recs, r.length = expected) ∧
    (∀ (line : List Char) (rest : List (List Char)) (buffer : List Char),
      buffer ++ line ≠ [] →
      (split_by cd (buffer ++ line)).length < expected →
      stream_cleaned_lines cd q expected (line :: rest) buffer =
        stream_cleaned_lines cd q expected rest (buffer ++ line)) ∧
    (∀ (line : List Char) (rest : List (List Char)) (buffer : List Char),
      buffer ++ line ≠ [] →
      (split_by cd (buffer ++ line)).length > expected →
      stream_cleaned_lines cd q expected (line :: rest) buffer =
        .error "CSVExtractionError: line has more columns than header") := by
  refine ⟨?_, ?_, ?_⟩
  · intro lines
    induction lines with
    | nil =>
      intro buffer recs h
      unfold stream_cleaned_lines at h
      by_cases hb : buffer.isEmpty
      · rw [if_pos hb] at h
        injection h with h
        subst h
        intro r hr
        exact absurd hr (List.not_mem_nil r)
      · rw [if_neg hb] at h
        dsimp only at h
        by_cases hlen : (split_by cd buffer).length = expected
        · rw [if_pos hlen] at h
          injection h with h
          subst h
          intro r hr
          rw [List.mem_singleton.mp hr, normalize_record_length]
          exact hlen
        · rw [if_neg hlen] at h
          exact absurd h (by simp)
    | cons line rest ih =>
      intro buffer recs h
      unfold stream_cleaned_lines at h
      dsimp only at h
      by_cases hb : (buffer ++ line).isEmpty
      · rw [if_pos hb] at h
        exact ih _ _ h
      · rw [if_neg hb] at h
        by_cases hlt : (split_by cd (buffer ++ line)).length < expected
        · rw [if_pos hlt] at h
          exact ih _ _ h
        · rw [if_neg hlt] at h
          by_cases heq : (split_by cd (buffer ++ line)).length = expected
          · rw [if_pos heq] at h
            cases hrec : stream_cleaned_lines cd q expected rest [] with
            | error e =>
              rw [hrec] at h
              exact absurd h (by simp [Except.map])
            | ok recs' =>
              rw [hrec] at h
              simp only [Except.map] at h
              injection h with h
              subst h
              intro r hr
              rcases List.mem_cons.mp hr with hhead | htail
              · rw [hhead, normalize_record_length]
                exact heq
              · exact ih _ _ hrec r htail
          · rw [if_neg heq] at h
            exact absurd h (by simp)
  · intro line rest buffer hne hlt
    conv_lhs => unfold stream_cleaned_lines
    dsimp only
    rw [if_neg (by simp only [List.isEmpty_iff]; exact hne), if_pos hlt]
  · intro line rest buffer hne hgt
    unfold stream_cleaned_lines
    dsimp only
    rw [if_neg (by simp only [List.isEmpty_iff]; exact hne),
      if_neg (by omega), if_neg (by omega)]

/-- Witness for C8: the two-column-quote stream on three physical lines
where the second logical record spans two lines — applying the emission
theorem to the first emitted record, which has exactly 3 fields. -/
theorem stream_record_emission_witness :
    (["a".toList, "b".toList, "c".toList] : List (List Char)).length = 3 :=
  (stream_record_emission ['"', ',', '"'] '"' 3).1
    ["\"a\",\"b\",\"c\"".toList, "\"d\",\"e".toList, "f\",\"g\"".toList] []
    [["a".toList, "b".toList, "c".toList], ["d".toList, "ef".toList, "g".toList]]
    (by rfl)
    ["a".toList, "b".toList, "c".toList]
    (List.mem_cons_self _ _)

end Lakehouse
